import Mathlib

/-!
Verification of the ERP bot (`bot.py`): a shallow embedding of its
credential store, snapshot store, session management, login flow, page
extractors and message formatters, with theorems checking the design
document's claims against the code.

Modelling conventions:
* sqlite tables become association lists / lists of rows;
* `datetime.now()` becomes an explicit `now` parameter (minutes as `Nat`
  for session expiry, a preformatted string for the `strftime` stamps that
  formatters print);
* browser/network effects are oracles: each effectful step is an
  `Except String` value (exception message or result) supplied by the
  environment record of the extractor;
* Python/JS floats are modelled as exact rationals.  `Q` is an executable
  rational (integer numerator, positive natural denominator, arithmetic
  without normalisation so that the kernel can evaluate it); `Q.toRat`
  maps it to `ℚ` for statements.  Every number the program manipulates is
  a short decimal, where float arithmetic is exact.
-/

/- ===================== generic string helpers ===================== -/

/-- `charsPrefix pat l` : `pat` is a prefix of `l`. -/
def charsPrefix : List Char → List Char → Bool
  | [], _ => true
  | _ :: _, [] => false
  | a :: as, b :: bs => a == b && charsPrefix as bs

/-- `charsInfix pat l` : `pat` occurs contiguously inside `l`. -/
def charsInfix (pat : List Char) : List Char → Bool
  | [] => charsPrefix pat []
  | c :: rest => charsPrefix pat (c :: rest) || charsInfix pat rest

/-- Python's `pat in s` / JS `s.includes(pat)`: substring containment. -/
def containsSubstr (s pat : String) : Bool := charsInfix pat.data s.data

/-- Left-pad a string with zeros to width `w`. -/
def padLeftZeros (w : Nat) (s : String) : String :=
  if s.length < w then String.mk (List.replicate (w - s.length) '0') ++ s else s

/-- Python `sep.join(parts)`. -/
def joinStr (sep : String) : List String → String
  | [] => ""
  | [x] => x
  | x :: y :: rest => x ++ sep ++ joinStr sep (y :: rest)

/- ===================== executable exact rationals ===================== -/

/-- An executable rational: `n / d` with `d` a (positive, in all uses)
natural number.  Arithmetic does not normalise, so the kernel can evaluate
it; `Q.toRat` gives the mathematical value. -/
structure Q where
  n : Int
  d : Nat := 1
  deriving DecidableEq, Repr

instance (k : Nat) : OfNat Q k := ⟨⟨(k : Int), 1⟩⟩

def Q.ofInt (i : Int) : Q := ⟨i, 1⟩

def Q.toRat (a : Q) : Rat := (a.n : Rat) / (a.d : Rat)

def Q.add (a b : Q) : Q := ⟨a.n * b.d + b.n * a.d, a.d * b.d⟩

def Q.div (a b : Q) : Q :=
  if 0 ≤ b.n then ⟨a.n * b.d, a.d * b.n.toNat⟩ else ⟨-(a.n * b.d), a.d * (-b.n).toNat⟩

/-- `a ≤ b` by cross multiplication (denominators are positive in all uses). -/
def Q.le (a b : Q) : Bool := a.n * b.d ≤ b.n * a.d

def Q.lt (a b : Q) : Bool := a.n * b.d < b.n * a.d

/-- Truncation toward zero, Python's `int(...)` on a float. -/
def Q.trunc (a : Q) : Int := Int.tdiv a.n a.d

/-- The integer nearest `a * 10 ^ k` (half away from zero on ties; the
program only formats values exact at `k` decimals, where every rounding
rule agrees). -/
def Q.scaleRound (k : Nat) (a : Q) : Int :=
  if 0 ≤ a.n then Int.fdiv (2 * a.n * 10 ^ k + a.d) (2 * a.d)
  else -Int.fdiv (2 * (-a.n) * 10 ^ k + a.d) (2 * a.d)

/-- Python `f"{q:.kf}"`: fixed-point rendering with `k` decimals. -/
def renderFixed (k : Nat) (q : Q) : String :=
  let scaled := q.scaleRound k
  let sign := if scaled < 0 then "-" else ""
  let m := scaled.natAbs
  if k = 0 then sign ++ toString m
  else sign ++ toString (m / 10 ^ k) ++ "." ++ padLeftZeros k (toString (m % 10 ^ k))

/-- Digits of the integer part grouped in threes (input reversed). -/
def commaGroupAux : List Char → List Char
  | [] => []
  | [a] => [a]
  | [a, b] => [a, b]
  | [a, b, c] => [a, b, c]
  | a :: b :: c :: rest => a :: b :: c :: ',' :: commaGroupAux rest

/-- Python `f"{q:,.2f}"`: two decimals, thousands separated by commas. -/
def renderComma2 (q : Q) : String :=
  let scaled := q.scaleRound 2
  let sign := if scaled < 0 then "-" else ""
  let m := scaled.natAbs
  sign ++ String.mk ((commaGroupAux (toString (m / 100)).data.reverse).reverse)
    ++ "." ++ padLeftZeros 2 (toString (m % 100))

/- ===================== number parsing ===================== -/

/-- Value of a list of decimal digits. -/
def digitsVal (l : List Char) : Nat :=
  l.foldl (fun acc c => acc * 10 + (c.toNat - '0'.toNat)) 0

/-- Characters the JS regex `replace(/[^0-9.]/g, '')` keeps. -/
def isDigitOrDot (c : Char) : Bool := c.isDigit || c == '.'

/-- JS `raw.replace(/[^0-9.]/g, '')`: strip every character that is not a
digit or a dot. -/
def stripNonNumeric (s : String) : String := String.mk (s.data.filter isDigitOrDot)

/-- An ASCII whitespace character (what Python `str.strip()` removes in
this program's data). -/
def isSpaceChar (c : Char) : Bool := c == ' ' || c == '\t' || c == '\n' || c == '\r'

/-- Python `str.strip()`: drop leading and trailing whitespace. -/
def pyStrip (s : String) : String :=
  String.mk (((s.data.dropWhile isSpaceChar).reverse.dropWhile isSpaceChar).reverse)

/-- JS `parseFloat` on a string of digits and dots (the only shape it is
applied to in the program, after `stripNonNumeric`): the leading
`digits[.digits]` prefix, `none` for NaN (no leading digit and no `.digit`). -/
def jsParseFloat (s : String) : Option Q :=
  let cs := s.data
  let intD := cs.takeWhile Char.isDigit
  let rest := cs.dropWhile Char.isDigit
  match rest with
  | '.' :: rest2 =>
    let fracD := rest2.takeWhile Char.isDigit
    if intD.isEmpty && fracD.isEmpty then none
    else some ⟨(digitsVal intD * 10 ^ fracD.length + digitsVal fracD : Nat), 10 ^ fracD.length⟩
  | _ => if intD.isEmpty then none else some ⟨(digitsVal intD : Nat), 1⟩

/-- `parseFloat(raw.replace(/[^0-9.]/g, '')) || 0` from `extract_fees`:
strip non-numeric characters, parse, and fall back to `0` (NaN is falsy). -/
def normalizeAmount (raw : String) : Q := (jsParseFloat (stripNonNumeric raw)).getD 0

/-- Python `float(s)` restricted to the plain decimal grammar
`[+-]digits[.digits]` (whole string; `none` raises `ValueError`). -/
def pyParseFloatCore (cs : List Char) : Option Q :=
  let intD := cs.takeWhile Char.isDigit
  let rest := cs.dropWhile Char.isDigit
  match rest with
  | [] => if intD.isEmpty then none else some ⟨(digitsVal intD : Nat), 1⟩
  | '.' :: rest2 =>
    let fracD := rest2.takeWhile Char.isDigit
    if !(rest2.dropWhile Char.isDigit).isEmpty then none
    else if intD.isEmpty && fracD.isEmpty then none
    else some ⟨(digitsVal intD * 10 ^ fracD.length + digitsVal fracD : Nat), 10 ^ fracD.length⟩
  | _ => none

def pyParseFloat (s : String) : Option Q :=
  match s.data with
  | '-' :: cs => (pyParseFloatCore cs).map (fun q => ⟨-q.n, q.d⟩)
  | '+' :: cs => pyParseFloatCore cs
  | cs => pyParseFloatCore cs

/- ===================== JSON scalar values ===================== -/

/-- A scalar out of the portal's JSON API: an integer, a string, or JSON
null (Python `None`, for `item.get(key)` with no default). -/
inductive JVal where
  | jint (i : Int)
  | jstr (s : String)
  | jnull
  deriving DecidableEq, Repr

/-- Python `str(x)` on a JSON scalar. -/
def toPyStr : JVal → String
  | .jint i => toString i
  | .jstr s => s
  | .jnull => "None"

/-- Python truthiness of a JSON scalar. -/
def jvalTruthy : JVal → Bool
  | .jint i => i != 0
  | .jstr s => !s.isEmpty
  | .jnull => false

/-- `float(str(x).replace(",", "").strip())` with `except: 0.0`, the
pattern used for SGPA and attendance percentages.  On an integer,
str-then-float is the identity; on a failing string the fallback is `0`. -/
def pyFloatCoerce : JVal → Q
  | .jint i => ⟨i, 1⟩
  | .jstr s => (pyParseFloat (pyStrip (s.replace "," ""))).getD 0
  | .jnull => 0

/-- Python `str.isdigit`: nonempty and all characters decimal digits. -/
def pyIsDigit (s : String) : Bool := !s.isEmpty && s.data.all Char.isDigit

/-- `int(x) if str(x).isdigit() else 0`, the backlog-total accumulator. -/
def pyIntIfDigits (v : JVal) : Int :=
  let s := toPyStr v
  if pyIsDigit s then (digitsVal s.data : Int) else 0

/-- JS `parseInt` on trimmed cell text: optional sign then leading digits,
`none` for NaN. -/
def jsParseInt (s : String) : Option Int :=
  match s.data with
  | '-' :: cs =>
    let ds := cs.takeWhile Char.isDigit
    if ds.isEmpty then none else some (-(digitsVal ds : Int))
  | '+' :: cs =>
    let ds := cs.takeWhile Char.isDigit
    if ds.isEmpty then none else some (digitsVal ds : Int)
  | cs =>
    let ds := cs.takeWhile Char.isDigit
    if ds.isEmpty then none else some (digitsVal ds : Int)

/- ===================== users table ===================== -/

/-- One row of the sqlite `users` table (`chat_id` is the key of the
association list; `alerts_on` is the 0/1 flag as a Bool). -/
structure UserRow where
  username : String
  password : String
  created_at : Nat
  last_login : Nat
  alerts_on : Bool
  deriving DecidableEq, Repr

/-- The `users` table: rows keyed by `chat_id` (at most one per key, as the
primary key guarantees). -/
abbrev UsersDb := List (Nat × UserRow)

def dbLookup : UsersDb → Nat → Option UserRow
  | [], _ => none
  | r :: rest, chat_id => if r.1 = chat_id then some r.2 else dbLookup rest chat_id

/-- `save_credentials`: `INSERT OR REPLACE INTO users ... VALUES (?, ?, ?,
?, ?, COALESCE((SELECT alerts_on FROM users WHERE chat_id=?), 1))` — the
REPLACE drops any existing row with this primary key and the COALESCE
carries its `alerts_on` over (default 1 when there was none);
`created_at`/`last_login` are set to `datetime.now()`. -/
def save_credentials (db : UsersDb) (chat_id : Nat) (username password : String)
    (now : Nat) : UsersDb :=
  let keep := ((dbLookup db chat_id).map (·.alerts_on)).getD true
  db.filter (fun r => r.1 != chat_id) ++ [(chat_id, ⟨username, password, now, now, keep⟩)]

def get_credentials (db : UsersDb) (chat_id : Nat) : Option (String × String) :=
  (dbLookup db chat_id).map (fun r => (r.username, r.password))

/-- `toggle_alerts`: read `alerts_on` for the chat, compute
`new_val = 0 if (current and current[0] == 1) else 1`, `UPDATE` the row
(which touches nothing when no row matches) and return `bool(new_val)`. -/
def toggle_alerts (db : UsersDb) (chat_id : Nat) : UsersDb × Bool :=
  let current := (dbLookup db chat_id).map (·.alerts_on)
  let new_val : Bool := !(current.getD false)
  (db.map (fun r => if r.1 = chat_id then (r.1, {r.2 with alerts_on := new_val}) else r),
   new_val)

/- ===================== snapshots table ===================== -/

/-- One row of the `snapshots` table.  `data` stands for the `data_json`
payload; `captured_at` is the insertion timestamp (ISO strings compare
chronologically, so a `Nat` models them). -/
structure Snap where
  chat_id : Nat
  page_name : String
  data : String
  captured_at : Nat
  deriving DecidableEq, Repr

/-- `save_snapshot`: a plain `INSERT`, appending one row. -/
def save_snapshot (store : List Snap) (s : Snap) : List Snap := store ++ [s]

/-- The rows of the `WHERE chat_id=? AND page_name=?` filter. -/
def snapRows (store : List Snap) (chat_id : Nat) (page_name : String) : List Snap :=
  store.filter (fun s => s.chat_id == chat_id && s.page_name == page_name)

/-- `ORDER BY captured_at DESC`: newest first. -/
def snapGE (a b : Snap) : Prop := b.captured_at ≤ a.captured_at

instance : DecidableRel snapGE := fun a b => Nat.decLe b.captured_at a.captured_at

instance : IsTotal Snap snapGE := ⟨fun a b => Nat.le_total b.captured_at a.captured_at⟩

instance : IsTrans Snap snapGE := ⟨fun _ _ _ h1 h2 => Nat.le_trans h2 h1⟩

/-- `get_last_snapshot`: `SELECT data_json ... WHERE chat_id=? AND
page_name=? ORDER BY captured_at DESC LIMIT 1 OFFSET 1` — the filtered rows
sorted newest first, skipping the first. -/
def get_last_snapshot (store : List Snap) (chat_id : Nat) (page_name : String) :
    Option String :=
  ((((snapRows store chat_id page_name).insertionSort snapGE).drop 1).head?).map (·.data)

/- ===================== login and sessions ===================== -/

/-- `SESSION_TIMEOUT_MINUTES = 30`. -/
def SESSION_TIMEOUT_MINUTES : Nat := 30

/-- The substring of the post-login URL the code tests for
(`"Home_student" not in page.url`). -/
def LOGGED_IN_MARKER : String := "Home_student"

/-- What one drive of the login form observably did: an exception raised
before the browsing context was allocated, an exception after, or a
completed navigation ending at `url`.  Invalid credentials and
timed-out/ambiguous portal states both end in `landed` at a URL without
the marker — the code inspects nothing else. -/
inductive NavOutcome where
  | throwBeforeAlloc (msg : String)
  | throwAfterAlloc (msg : String)
  | landed (url : String)
  deriving DecidableEq, Repr

/-- A `user_sessions[chat_id]` entry: the browsing-context id it owns and
its expiry time (minutes). -/
structure SessionRec where
  ctx : Nat
  expires : Nat
  deriving DecidableEq, Repr

/-- The browser-resource and session state for one user: the next fresh
context id, contexts created and not closed, contexts closed (one entry
per `close()` call, so double closes would show), the session-dictionary
entry, and how many login attempts were driven (`attempts`). -/
structure BotState where
  nextCtx : Nat
  openCtxs : List Nat
  closedCtxs : List Nat
  session : Option SessionRec
  attempts : Nat
  deriving DecidableEq, Repr

/-- `is_expired`: `datetime.now() > session["expires"]`. -/
def is_expired (now : Nat) (s : SessionRec) : Bool := s.expires < now

/-- `auto_login`: with no stored credentials return `None`; otherwise open
a fresh browsing context, drive the login form, and test the landing URL
for `LOGGED_IN_MARKER`.  On the marker: store a fresh session (expiry
`now + SESSION_TIMEOUT_MINUTES`) in the session dictionary and return it.
On a URL without the marker: close the new context, return `None`.  On any
exception: return `None` (a context allocated before the exception stays
open — the `except` path closes nothing).  The previous session-dictionary
entry is overwritten (success) or left in place (failure); the old
browsing context is never closed here. -/
def auto_login (creds : Option (String × String)) (nav : NavOutcome) (now : Nat)
    (st : BotState) : BotState × Option SessionRec :=
  match creds with
  | none => (st, none)
  | some _ =>
    match nav with
    | .throwBeforeAlloc _ => ({st with attempts := st.attempts + 1}, none)
    | .throwAfterAlloc _ =>
      ({st with attempts := st.attempts + 1, nextCtx := st.nextCtx + 1,
                openCtxs := st.nextCtx :: st.openCtxs}, none)
    | .landed url =>
      let cid := st.nextCtx
      if containsSubstr url LOGGED_IN_MARKER then
        let sess : SessionRec := ⟨cid, now + SESSION_TIMEOUT_MINUTES⟩
        ({st with attempts := st.attempts + 1, nextCtx := cid + 1,
                  openCtxs := cid :: st.openCtxs, session := some sess}, some sess)
      else
        ({st with attempts := st.attempts + 1, nextCtx := cid + 1,
                  openCtxs := (cid :: st.openCtxs).erase cid,
                  closedCtxs := cid :: st.closedCtxs}, none)

/-- The session lookup every command handler performs (`getOrCreate`):
`session = user_sessions.get(chat_id); if not session or
is_expired(session): session = await auto_login(chat_id)`. -/
def getOrCreate (creds : Option (String × String)) (nav : NavOutcome) (now : Nat)
    (st : BotState) : BotState × Option SessionRec :=
  match st.session with
  | some s => if is_expired now s then auto_login creds nav now st else (st, some s)
  | none => auto_login creds nav now st

/-- `close_session`: pop the session entry and close its page and context
(exceptions ignored); closes the context exactly once. -/
def close_session (st : BotState) : BotState :=
  match st.session with
  | none => st
  | some s =>
    {st with session := none, openCtxs := st.openCtxs.erase s.ctx,
             closedCtxs := s.ctx :: st.closedCtxs}

/-- The outcome of the interactive login flow (`get_password`): the
success message, the "Login Failed" screenshot reply (landing URL lacks
the marker), or the generic error reply (an exception was raised). -/
inductive LoginDecision where
  | success
  | failed_screenshot
  | error_message (msg : String)
  deriving DecidableEq, Repr

/-- The decision `get_password` makes from one observed login drive. -/
def login_decision (nav : NavOutcome) : LoginDecision :=
  match nav with
  | .throwBeforeAlloc m => .error_message m
  | .throwAfterAlloc m => .error_message m
  | .landed url =>
    if containsSubstr url LOGGED_IN_MARKER then .success else .failed_screenshot

/-- `verify_logged_in`: `try: return await page.query_selector(...) is not
None; except Exception: return False`.  The query either throws or yields
an optional element. -/
def verify_logged_in (res : Except String (Option Unit)) : Bool :=
  match res with
  | .ok v => v.isSome
  | .error _ => false

/- ===================== extractor payloads ===================== -/

/-- The profile fields `extract_profile` reads off the ASP.NET labels
(each `g(id)` yields the label's text, `''` when the element is absent). -/
structure Profile where
  full_name : String := ""
  marksheet_name : String := ""
  father_name : String := ""
  mother_name : String := ""
  gender : String := ""
  dob : String := ""
  aadhar : String := ""
  blood_group : String := ""
  email : String := ""
  mobile : String := ""
  category : String := ""
  college : String := ""
  department : String := ""
  program : String := ""
  semester : String := ""
  division : String := ""
  roll_no : String := ""
  admission_no : String := ""
  enrollment_no : String := ""
  admission_year : String := ""
  admission_type : String := ""
  abc_id : String := ""
  address : String := ""
  address2 : String := ""
  city : String := ""
  state : String := ""
  pincode : String := ""
  father_mobile : String := ""
  deriving DecidableEq, Repr

/-- The dict `extract_profile` returns: `{"profile": ..., "extracted_at":
...}` on success, `{"error": str(e)}` on an exception.  `profile = none`
models a dict without the key (the formatter's `data.get("profile", {})`
then sees an empty, falsy dict). -/
structure ProfileData where
  error : Option String := none
  profile : Option Profile := none
  extracted_at : Nat := 0
  deriving DecidableEq, Repr

/-- One item of the `ListAttendanceStudent` API response. -/
structure MonthApiItem where
  month : String := ""
  total_arrange_lect : JVal := .jint 0
  remaning : JVal := .jint 0
  total_lecture_for_stud : JVal := .jint 0
  absent_lecture : JVal := .jint 0
  present_lecture : JVal := .jint 0
  persentage : JVal := .jint 0
  deriving DecidableEq, Repr

/-- One entry of the `monthly` list `extract_attendance` builds. -/
structure MonthEntry where
  sr : Nat
  month : String
  total_arranged : JVal
  remaining : JVal
  total_lectures : JVal
  absent : JVal
  present : JVal
  percentage : JVal
  deriving DecidableEq, Repr

/-- The field-by-field mapping of the monthly loop (`sr` is `i + 1`). -/
def toMonthEntry (i : Nat) (c : MonthApiItem) : MonthEntry :=
  { sr := i + 1, month := c.month, total_arranged := c.total_arrange_lect,
    remaining := c.remaning, total_lectures := c.total_lecture_for_stud,
    absent := c.absent_lecture, present := c.present_lecture,
    percentage := c.persentage }

/-- One day cell of the lecture-wise DOM table. -/
structure DayCell where
  date : String := ""
  status : String := "-"
  faculty : String := ""
  topic : String := ""
  reason : String := ""
  deriving DecidableEq, Repr

structure Lecture where
  slot : Int
  days : List DayCell := []
  deriving DecidableEq, Repr

/-- The student header labels the attendance page's DOM JS reads. -/
structure StudentInfo where
  name : String := ""
  enrollment : String := ""
  college : String := ""
  department : String := ""
  course : String := ""
  semester : String := ""
  division : String := ""
  batch : String := ""
  term : String := ""
  deriving DecidableEq, Repr

/-- What the attendance page's DOM-walking JS returns. -/
structure AttDomData where
  lectures : List Lecture := []
  student : StudentInfo := {}
  headers : List String := []
  deriving DecidableEq, Repr

/-- The dict `extract_attendance` returns. -/
structure AttData where
  error : Option String := none
  monthly : List MonthEntry := []
  lectures : List Lecture := []
  student : StudentInfo := {}
  headers : List String := []
  extracted_at : Nat := 0
  deriving DecidableEq, Repr

/-- One row of the exam-results table scrape. -/
structure ExamRow where
  subject : String := ""
  marks : String := ""
  grade : String := ""
  result : String := ""
  deriving DecidableEq, Repr

/-- The dict `extract_exam` returns. -/
structure ExamData where
  error : Option String := none
  results : List ExamRow := []
  extracted_at : Nat := 0
  deriving DecidableEq, Repr

/-- One `tr.tabe_12` row as the fees-page JS reads it: the trimmed serial
cell and the first nonempty span for each label suffix. -/
structure FeeRowRaw where
  sr : String := ""
  lbl_fee_type : String := ""
  lbl_pay_type : String := ""
  lbl_account_head : String := ""
  lbl_pay_date : String := ""
  lbl_receipt_no : String := ""
  lbl_status : String := ""
  deriving DecidableEq, Repr

/-- One processed fee transaction. -/
structure FeeRow where
  sr : Int
  amount_display : String
  amount : Q
  pay_type : String
  account_head : String
  pay_date : String
  receipt_no : String
  status : String
  deriving DecidableEq, Repr

/-- The fees-page JS per row: skip it when the serial cell is empty or not
a number (`!sr || isNaN(parseInt(sr))`), otherwise keep every field, with
the amount normalised by `parseFloat(raw.replace(/[^0-9.]/g, '')) || 0` —
a failing amount parse yields `0`, never a dropped row. -/
def processFeeRow (r : FeeRowRaw) : Option FeeRow :=
  if r.sr.isEmpty then none
  else
    match jsParseInt r.sr with
    | none => none
    | some k =>
      some { sr := k, amount_display := r.lbl_fee_type,
             amount := normalizeAmount r.lbl_fee_type, pay_type := r.lbl_pay_type,
             account_head := r.lbl_account_head, pay_date := r.lbl_pay_date,
             receipt_no := r.lbl_receipt_no, status := r.lbl_status }

/-- The DOM state the fees-page JS sees: whether the `grd_inst_fee` table
exists, the candidate rows, and the `lblTotal` text (already defaulted to
`'0'` when the element is absent, as the JS does). -/
structure FeesDom where
  tableFound : Bool := true
  rows : List FeeRowRaw := []
  total_raw : String := "0"
  deriving DecidableEq, Repr

/-- The dict `extract_fees` returns (the JS can itself embed an `error`
string next to empty data when the fee table is missing). -/
structure FeesData where
  error : Option String := none
  fees : List FeeRow := []
  total_paid : Q := 0
  extracted_at : Nat := 0
  deriving DecidableEq, Repr

/-- The fees-page `page.evaluate` body. -/
def fees_page_eval (dom : FeesDom) : FeesData :=
  if !dom.tableFound then { fees := [], total_paid := 0, error := some "Fee table not found" }
  else { fees := dom.rows.filterMap processFeeRow,
         total_paid := normalizeAmount dom.total_raw }

/-- One item of the `ListStudentResult` API response. -/
structure ResultApiItem where
  Student_Code : String := ""
  Student_Name : String := ""
  Degree_Name : String := ""
  Semester_Name : String := ""
  exam_name : String := ""
  student_exam_type : String := ""
  is_result_declare : JVal := .jint 0
  swd_sem_id : JVal := .jnull
  swd_term_id : JVal := .jnull
  swd_year_id : JVal := .jnull
  swd_id : JVal := .jnull
  swd_college_id : JVal := .jnull
  Degree_id : JVal := .jnull
  Student_Id : JVal := .jnull
  deriving DecidableEq, Repr

/-- One entry of the `results` list `extract_result` builds. -/
structure ResultEntry where
  enrollment : String
  name : String
  program : String
  semester : String
  exam : String
  exam_type : String
  result_declared : JVal
  swd_sem_id : JVal
  swd_term_id : JVal
  swd_year_id : JVal
  swd_id : JVal
  swd_college_id : JVal
  degree_id : JVal
  student_id : JVal
  deriving DecidableEq, Repr

def toResultEntry (item : ResultApiItem) : ResultEntry :=
  { enrollment := item.Student_Code, name := item.Student_Name,
    program := item.Degree_Name, semester := item.Semester_Name,
    exam := item.exam_name, exam_type := item.student_exam_type,
    result_declared := item.is_result_declare, swd_sem_id := item.swd_sem_id,
    swd_term_id := item.swd_term_id, swd_year_id := item.swd_year_id,
    swd_id := item.swd_id, swd_college_id := item.swd_college_id,
    degree_id := item.Degree_id, student_id := item.Student_Id }

/-- One item of the `Get_student_total_backlog_and_attempt` API response. -/
structure BacklogApiItem where
  semester_name : String := ""
  ssrd_SGPA : JVal := .jint 0
  Total_backlog : JVal := .jint 0
  Total_Attempt : JVal := .jint 0
  enrollment_no : String := ""
  student_name : String := ""
  Degree_Name : String := ""
  deriving DecidableEq, Repr

/-- One entry of the `performance` list: the SGPA is parsed with
`float(str(...).replace(",", "").strip())`, `except: 0.0`. -/
structure PerfEntry where
  semester : String
  sgpa : Q
  backlogs : JVal
  attempts : JVal
  enrollment_no : String
  student_name : String
  degree_name : String
  deriving DecidableEq, Repr

def toPerfEntry (item : BacklogApiItem) : PerfEntry :=
  { semester := item.semester_name, sgpa := pyFloatCoerce item.ssrd_SGPA,
    backlogs := item.Total_backlog, attempts := item.Total_Attempt,
    enrollment_no := item.enrollment_no, student_name := item.student_name,
    degree_name := item.Degree_Name }

/-- The dict `extract_result` returns. -/
structure ResultData where
  error : Option String := none
  results : List ResultEntry := []
  performance : List PerfEntry := []
  extracted_at : Nat := 0
  deriving DecidableEq, Repr

/- ===================== extractors ===================== -/

/-- The effect oracle for `extract_profile`: the navigation (sleep and
Angular wait swallow their own errors) and the `page.evaluate`. -/
structure ProfileEnv where
  nav : Except String Unit
  eval : Except String Profile

/-- `extract_profile`: the whole body under `try`, `except` returning
`{"error": str(e)}`. -/
def extract_profile (now : Nat) (env : ProfileEnv) : ProfileData :=
  match (do env.nav; env.eval : Except String Profile) with
  | .ok p => { profile := some p, extracted_at := now }
  | .error e => { error := some e }

/-- The effect oracle for `extract_attendance`: navigation, the monthly
API call (guarded by its own inner `try`), and the DOM-walking evaluate. -/
structure AttEnv where
  nav : Except String Unit
  api : Except String (List MonthApiItem)
  dom : Except String AttDomData

/-- `extract_attendance`: the monthly API call failing is absorbed by the
inner `except` (logged, `monthly = []`); everything else that throws hits
the outer `except` which returns `{"error": str(e)}`. -/
def extract_attendance (now : Nat) (env : AttEnv) : AttData :=
  match (do
      env.nav
      let monthly := match env.api with
        | .ok d => d.enum.map (fun p => toMonthEntry p.1 p.2)
        | .error _ => []
      let domd ← env.dom
      pure { monthly := monthly, lectures := domd.lectures, student := domd.student,
             headers := domd.headers, extracted_at := now } : Except String AttData) with
  | .ok r => r
  | .error e => { error := some e }

/-- The effect oracle for `extract_exam`. -/
structure ExamEnv where
  nav : Except String Unit
  eval : Except String (List ExamRow)

/-- `extract_exam`: body under `try`, `except` returning `{"error": str(e)}`. -/
def extract_exam (now : Nat) (env : ExamEnv) : ExamData :=
  match (do env.nav; env.eval : Except String (List ExamRow)) with
  | .ok rs => { results := rs, extracted_at := now }
  | .error e => { error := some e }

/-- The effect oracle for `extract_fees`: navigation, whether the
`page.evaluate` call itself throws, and the DOM it processes. -/
structure FeesEnv where
  nav : Except String Unit
  evalExn : Option String
  dom : FeesDom

/-- `extract_fees`: on success the evaluate's dict gets `extracted_at`
stamped and is returned as is (including the embedded "Fee table not
found" error case); any exception yields `{"error": str(e)}`. -/
def extract_fees (now : Nat) (env : FeesEnv) : FeesData :=
  match (do
      env.nav
      match env.evalExn with
      | some e => Except.error e
      | none => pure (fees_page_eval env.dom) : Except String FeesData) with
  | .ok r => { r with extracted_at := now }
  | .error e => { error := some e }

/-- The effect oracle for `extract_result`: navigation and the two API
calls (neither is guarded by an inner `try`: their exceptions reach the
outer handler). -/
structure ResultEnv where
  nav : Except String Unit
  api1 : Except String (List ResultApiItem)
  api2 : Except String (List BacklogApiItem)

/-- `extract_result`: list mapping for both endpoints, `{"error": str(e)}`
on any exception. -/
def extract_result (now : Nat) (env : ResultEnv) : ResultData :=
  match (do
      env.nav
      let l1 ← env.api1
      let l2 ← env.api2
      pure { results := l1.map toResultEntry, performance := l2.map toPerfEntry,
             extracted_at := now } : Except String ResultData) with
  | .ok r => r
  | .error e => { error := some e }

/- ===================== formatters ===================== -/

/-- The `row(label, value)` helper of `format_profile_message`: append one
line per nonempty, non-whitespace value. -/
def profile_row (label value : String) : List String :=
  if pyStrip value = "" then [] else ["  `" ++ label ++ ":` " ++ value]

/-- The lines of the profile message before the final timestamp. -/
def profile_core (p : Profile) : List String :=
  ["👤 *Student Profile*", "━━━━━━━━━━━━━━━━━━━━━━", "", "📌 *Personal Details*"]
  ++ profile_row "Full Name" p.full_name
  ++ profile_row "Father" p.father_name
  ++ profile_row "Mother" p.mother_name
  ++ profile_row "Gender" p.gender
  ++ profile_row "Date of Birth" p.dob
  ++ profile_row "Blood Group" p.blood_group
  ++ profile_row "Category" p.category
  ++ profile_row "Aadhar" p.aadhar
  ++ profile_row "ABC / APAAR" p.abc_id
  ++ ["", "📞 *Contact*"]
  ++ profile_row "Mobile" p.mobile
  ++ profile_row "Email" p.email
  ++ profile_row "Address" p.address
  ++ profile_row "City" p.city
  ++ profile_row "State" p.state
  ++ profile_row "Pin Code" p.pincode
  ++ profile_row "Father Mobile" p.father_mobile
  ++ ["", "🎓 *Academic Details*"]
  ++ profile_row "College/Faculty" p.college
  ++ profile_row "Department" p.department
  ++ profile_row "Program" p.program
  ++ profile_row "Semester" p.semester
  ++ profile_row "Division" p.division
  ++ profile_row "Roll No" p.roll_no
  ++ profile_row "Enrollment No" p.enrollment_no
  ++ profile_row "Admission No" p.admission_no
  ++ profile_row "Admission Year" p.admission_year
  ++ profile_row "Admission Type" p.admission_type

/-- `format_profile_message`.  `now_str` models
`datetime.now().strftime('%d %b %Y, %H:%M')`; the source appends the
`Updated:` line last and joins with newlines. -/
def format_profile_message (now_str : String) (data : ProfileData) : String :=
  match data.error with
  | some e => "❌ Could not extract profile: " ++ e
  | none =>
    match data.profile with
    | none => "👤 No profile data found."
    | some p =>
      joinStr "\n" (profile_core p ++ ["", "🕐 _Updated: " ++ now_str ++ "_"])

/-- The SGPA medal emoji ladder of `format_result_message`. -/
def sgpa_emoji (sgpa : Q) : String :=
  if Q.le 9 sgpa then "🏆"
  else if Q.le 8 sgpa then "🥇"
  else if Q.le 7 sgpa then "🥈"
  else if Q.le 6 sgpa then "🥉"
  else if Q.lt 0 sgpa then "📌"
  else "⏳"

/-- The per-exam block of `format_result_message`. -/
def result_exam_block (r : ResultEntry) : String :=
  let declared := jvalTruthy r.result_declared
  let icon := if declared then "✅" else "⏳"
  "\n" ++ icon ++ " *" ++ r.semester ++ "* — " ++ r.exam ++ "\n"
  ++ "   📚 " ++ r.program ++ "\n"
  ++ "   🔖 Type: " ++ r.exam_type ++ "\n"
  ++ "   " ++ (if declared then "🟢 Result Declared" else "🔴 Result Not Declared Yet")

/-- The per-semester performance block of `format_result_message`. -/
def perf_block (p : PerfEntry) : String :=
  sgpa_emoji p.sgpa ++ " *" ++ p.semester ++ "*\n"
  ++ "   SGPA: `" ++ renderFixed 2 p.sgpa ++ "` | Backlogs: `" ++ toPyStr p.backlogs
  ++ "` | Attempts: `" ++ toPyStr p.attempts ++ "`"

/-- The lines of the result message before the final timestamp. -/
def result_core (data : ResultData) : List String :=
  ["🏅 *Exam Results*", "━━━━━━━━━━━━━━━━━━━━━━"]
  ++ (if data.results.isEmpty then []
      else ["", "📋 *Registered Exams*"] ++ data.results.map result_exam_block)
  ++ (if data.performance.isEmpty then []
      else ["", "━━━━━━━━━━━━━━━━━━━━━━", "📊 *Consolidated Performance*", ""]
        ++ data.performance.map perf_block
        ++ ["", "━━━━━━━━━━━━━━━━━━━━━━",
            "📌 *Total Backlogs: "
            ++ toString (data.performance.foldl
                 (fun acc p => acc + pyIntIfDigits p.backlogs) 0) ++ "*"])

/-- `format_result_message`.  `now_str` models
`datetime.now().strftime('%d %b %Y, %H:%M')`; the `Updated:` line is
appended last. -/
def format_result_message (now_str : String) (data : ResultData) : String :=
  match data.error with
  | some e => "❌ Could not fetch results: " ++ e
  | none =>
    if data.results.isEmpty && data.performance.isEmpty then "🏅 No result data found."
    else joinStr "\n" (result_core data ++ ["\n🕐 _Updated: " ++ now_str ++ "_"])

/-- The accumulator of one account head inside `format_fees_message`:
running total, payment count, the set of payment modes and the dates. -/
structure GroupInfo where
  total : Q
  count : Nat
  modes : List String
  dates : List String
  deriving DecidableEq, Repr

/-- Set insertion for the `modes` set (membership test, order immaterial:
the display sorts). -/
def setInsert (s : List String) (m : String) : List String :=
  if m ∈ s then s else s ++ [m]

/-- Fold one fee into its account head's accumulator. -/
def updateGroup (info : GroupInfo) (f : FeeRow) : GroupInfo :=
  { total := info.total.add f.amount, count := info.count + 1,
    modes := if f.pay_type = "" then info.modes else setInsert info.modes f.pay_type,
    dates := if f.pay_date = "" then info.dates else info.dates ++ [f.pay_date] }

/-- The grouping loop of `format_fees_message`: a Python dict keyed by
account head, iteration order = insertion order. -/
def groupFees (fees : List FeeRow) : List (String × GroupInfo) :=
  fees.foldl (fun g f =>
    if g.any (fun kv => kv.1 == f.account_head) then
      g.map (fun kv => if kv.1 == f.account_head then (kv.1, updateGroup kv.2 f) else kv)
    else g ++ [(f.account_head, updateGroup ⟨0, 0, [], []⟩ f)]) []

/-- One account-head block of the fee summary. -/
def group_block (kv : String × GroupInfo) : String :=
  let modes_str := if kv.2.modes.isEmpty then "—"
    else joinStr " & " (kv.2.modes.insertionSort (· ≤ ·))
  let count_str := if 1 < kv.2.count then "×" ++ toString kv.2.count else "1 payment"
  "✅ *" ++ kv.1 ++ "*\n   💵 ₹" ++ renderComma2 kv.2.total ++ " (" ++ count_str
  ++ ")\n   🏦 " ++ modes_str

/-- The lines of the fee summary (the `As of:` date stamp is the second
line). -/
def fees_lines (now_date : String) (data : FeesData) : List String :=
  ["💰 *Fee Payment Summary*", "📅 As of: " ++ now_date,
   "━━━━━━━━━━━━━━━━━━━━━━"]
  ++ (groupFees data.fees).map group_block
  ++ ["━━━━━━━━━━━━━━━━━━━━━━",
      "💳 *Total Paid: ₹" ++ renderComma2 data.total_paid ++ "*",
      "📊 *" ++ toString data.fees.length ++ " transaction(s)*"]

/-- `format_fees_message`.  `now_date` models
`datetime.now().strftime('%d %b %Y')`. -/
def format_fees_message (now_date : String) (data : FeesData) : String :=
  match data.error with
  | some e => "❌ Could not extract fees: " ++ e
  | none =>
    if data.fees.isEmpty then "💰 No fee records found."
    else joinStr "\n" (fees_lines now_date data)

/-- The risk bands of `format_attendance_message`: (emoji, status) by
percentage, "Good" at the ≥ 85 boundary. -/
def att_band (pct : Q) : String × String :=
  if Q.le 85 pct then ("🟢", "Good")
  else if Q.le 75 pct then ("🟡", "OK")
  else if Q.le 60 pct then ("🟠", "⚠️ Low")
  else ("🔴", "❌ Critical")

/-- Python `"x" * n`: the empty string for a nonpositive count. -/
def pyRepeat (c : Char) (n : Int) : String := String.mk (List.replicate n.toNat c)

/-- The `█`/`░` progress bar: `filled = int(pct / 10)`. -/
def att_bar (pct : Q) : String :=
  let filled := (pct.div ⟨10, 1⟩).trunc
  pyRepeat '█' filled ++ pyRepeat '░' (10 - filled)

/-- The text of a month's block before the rendered percentage. -/
def att_month_pre (m : MonthEntry) : String :=
  let pct := pyFloatCoerce m.percentage
  "\n" ++ (att_band pct).1 ++ " *" ++ m.month ++ "*\n" ++ "   `" ++ att_bar pct ++ "` "

/-- The text of a month's block between the percentage and the band name. -/
def att_month_mid (m : MonthEntry) : String :=
  "\n   ✅ Present: " ++ toPyStr m.present ++ "  ❌ Absent: " ++ toPyStr m.absent
  ++ "  📚 Total: " ++ toPyStr m.total_lectures ++ "\n"
  ++ "   📝 Arranged: " ++ toPyStr m.total_arranged ++ "  — "

/-- One month's block in the attendance summary (the string the loop body
appends for entry `m`): prefix, `{pct:.1f}%`, the counts, the band name. -/
def att_month_line (m : MonthEntry) : String :=
  att_month_pre m ++ (renderFixed 1 (pyFloatCoerce m.percentage) ++ "%")
  ++ att_month_mid m ++ (att_band (pyFloatCoerce m.percentage)).2

/-- The lines of the attendance summary (payload case). -/
def att_lines (data : AttData) : List String :=
  let s := data.student
  let pcts := data.monthly.map (fun m => pyFloatCoerce m.percentage)
  let avg := (pcts.foldl Q.add 0).div ⟨(pcts.length : Int), 1⟩
  let low := pcts.countP (fun p => Q.lt p 75)
  ["📋 *Month-wise Attendance*"]
  ++ (if s.name = "" then [] else ["🎓 " ++ s.name ++ " | " ++ s.course ++ " " ++ s.semester])
  ++ (if s.term = "" then [] else ["📅 Term: " ++ s.term])
  ++ ["━━━━━━━━━━━━━━━━━━━━━━"]
  ++ data.monthly.map att_month_line
  ++ ["\n━━━━━━━━━━━━━━━━━━━━━━"]
  ++ ["📊 *Overall Avg: " ++ renderFixed 1 avg ++ "%*"]
  ++ (if low = 0 then ["✅ All months above 75%"]
      else ["⚠️ *" ++ toString low ++ " month(s) below 75%*"])

/-- `format_attendance_message` (it reads no clock: the output is a
function of the record alone). -/
def format_attendance_message (data : AttData) : String :=
  match data.error with
  | some e => "❌ Could not extract attendance: " ++ e
  | none =>
    if data.monthly.isEmpty then
      "📋 *Attendance*\n\n⚠️ No monthly data found.\nTry tapping *📋 Attendance* again after a moment."
    else joinStr "\n" (att_lines data)

/- ===================== fixtures ===================== -/

/-- An expired-session state: context 0 is open and owned by the stored
session whose expiry (minute 5) has passed. -/
def staleSt : BotState :=
  { nextCtx := 1, openCtxs := [0], closedCtxs := [], session := some ⟨0, 5⟩, attempts := 0 }

/-- A successful login landing: the dashboard URL carries the marker. -/
def goodLanding : NavOutcome :=
  .landed "https://noble.icrp.in/academic/Student-cp/Home_student.aspx"

/- ===================== theorems ===================== -/

/-- C7: `verify_logged_in` is total and fail-closed — for every query
outcome it returns a boolean; an exception gives `false`, and a normal
query answers whether the logout link was found. -/
theorem verify_logged_in_fail_closed :
    (∀ e : String, verify_logged_in (Except.error e) = false) ∧
    (∀ v : Option Unit, verify_logged_in (Except.ok v) = v.isSome) := by
  exact ⟨fun _ => rfl, fun _ => rfl⟩

/-- C1 counterexample: the code's login flow maps an invalid-credentials
landing (back at the portal entry page) and an ambiguous/unknown landing
(some other URL without the marker) to the *same* "Login Failed" outcome —
there is no separate Ambiguous outcome, contradicting the claimed clean
three-way separation.  A URL with the marker does yield success. -/
theorem login_outcome_collapse_cex :
    login_decision (.landed "https://noble.icrp.in/academic/Default.aspx")
      = .failed_screenshot ∧
    login_decision (.landed "https://noble.icrp.in/academic/Timeout_Unknown_State.aspx")
      = .failed_screenshot ∧
    login_decision (.landed "https://noble.icrp.in/academic/Student-cp/Home_student.aspx")
      = .success := by
  decide

/-- C1 (amended): the login flow distinguishes success from failure by the
single test `"Home_student" in page.url` — `login_decision` is `success`,
and `auto_login` returns a session, exactly when the navigation landed on
a URL containing the marker (and credentials exist, for `auto_login`); all
other outcomes (invalid credentials, ambiguous timeouts, unknown states)
collapse into failure. -/
theorem login_success_iff_marker (nav : NavOutcome) (creds : Option (String × String))
    (now : Nat) (st : BotState) :
    (login_decision nav = .success ↔
      ∃ url, nav = .landed url ∧ containsSubstr url LOGGED_IN_MARKER = true) ∧
    ((auto_login creds nav now st).2.isSome = true ↔
      (creds.isSome = true ∧
        ∃ url, nav = .landed url ∧ containsSubstr url LOGGED_IN_MARKER = true)) := by
  constructor
  · cases nav with
    | throwBeforeAlloc m => simp [login_decision]
    | throwAfterAlloc m => simp [login_decision]
    | landed url =>
      by_cases h : containsSubstr url LOGGED_IN_MARKER = true
      · simp [login_decision, h]
      · simp [login_decision, h]
  · cases creds with
    | none => cases nav <;> simp [auto_login]
    | some c =>
      cases nav with
      | throwBeforeAlloc m => simp [auto_login]
      | throwAfterAlloc m => simp [auto_login]
      | landed url =>
        by_cases h : containsSubstr url LOGGED_IN_MARKER = true
        · simp [auto_login, h]
        · simp [auto_login, h]

/-- C2 counterexample: a user with an expired session (context 0, expiry
minute 5) runs `getOrCreate` at minute 10; the re-login succeeds, the
session entry is replaced by fresh context 1 — but no context was closed
(`closedCtxs = []`) and the stale context 0 is still open: it is leaked,
not released. -/
theorem stale_context_not_released_cex :
    (getOrCreate (some ("alice", "goodpw")) goodLanding 10 staleSt).1.closedCtxs = [] ∧
    0 ∈ (getOrCreate (some ("alice", "goodpw")) goodLanding 10 staleSt).1.openCtxs ∧
    (getOrCreate (some ("alice", "goodpw")) goodLanding 10 staleSt).1.session
      = some ⟨1, 40⟩ := by
  decide

/-- C2 (amended): for a user whose session has expired, the next
`getOrCreate` performs exactly one re-authentication with the stored
credentials (`attempts` grows by one) and, on success, replaces the session
entry with one backed by a fresh context — but it never closes the stale
BrowsingContext: the set of closed contexts is unchanged (so the stale
context is not double-released — it is not released at all) and every
previously open context, including the stale one, stays open (a leak). -/
theorem expired_reauth_leaks_stale_context (u p url : String) (now : Nat)
    (st : BotState) (s : SessionRec) (hs : st.session = some s)
    (hex : s.expires < now) (hok : containsSubstr url LOGGED_IN_MARKER = true) :
    (getOrCreate (some (u, p)) (.landed url) now st).1.attempts = st.attempts + 1 ∧
    (getOrCreate (some (u, p)) (.landed url) now st).1.session
      = some ⟨st.nextCtx, now + SESSION_TIMEOUT_MINUTES⟩ ∧
    (getOrCreate (some (u, p)) (.landed url) now st).2
      = some ⟨st.nextCtx, now + SESSION_TIMEOUT_MINUTES⟩ ∧
    (getOrCreate (some (u, p)) (.landed url) now st).1.openCtxs
      = st.nextCtx :: st.openCtxs ∧
    (getOrCreate (some (u, p)) (.landed url) now st).1.closedCtxs = st.closedCtxs := by
  unfold getOrCreate
  rw [hs]
  simp [is_expired, hex, auto_login, hok]

/-- C2 witness: the amended behaviour at the concrete expired state. -/
theorem expired_reauth_leaks_stale_context_witness :
    (getOrCreate (some ("alice", "goodpw"))
        (.landed "https://noble.icrp.in/academic/Student-cp/Home_student.aspx")
        10 staleSt).1.attempts = staleSt.attempts + 1 ∧
    (getOrCreate (some ("alice", "goodpw"))
        (.landed "https://noble.icrp.in/academic/Student-cp/Home_student.aspx")
        10 staleSt).1.session = some ⟨staleSt.nextCtx, 10 + SESSION_TIMEOUT_MINUTES⟩ ∧
    (getOrCreate (some ("alice", "goodpw"))
        (.landed "https://noble.icrp.in/academic/Student-cp/Home_student.aspx")
        10 staleSt).2 = some ⟨staleSt.nextCtx, 10 + SESSION_TIMEOUT_MINUTES⟩ ∧
    (getOrCreate (some ("alice", "goodpw"))
        (.landed "https://noble.icrp.in/academic/Student-cp/Home_student.aspx")
        10 staleSt).1.openCtxs = staleSt.nextCtx :: staleSt.openCtxs ∧
    (getOrCreate (some ("alice", "goodpw"))
        (.landed "https://noble.icrp.in/academic/Student-cp/Home_student.aspx")
        10 staleSt).1.closedCtxs = staleSt.closedCtxs :=
  expired_reauth_leaks_stale_context "alice" "goodpw"
    "https://noble.icrp.in/academic/Student-cp/Home_student.aspx" 10 staleSt ⟨0, 5⟩
    rfl (by decide) (by decide)

/-- C3: every extractor is a total function of its effect environment and
returns either its structured payload (stamped `extracted_at := now`) or a
record carrying an explicit error string — no exception crosses the
extractor boundary. -/
theorem extractors_total_error_marked (now : Nat) (pe : ProfileEnv) (ae : AttEnv)
    (ee : ExamEnv) (fe : FeesEnv) (re : ResultEnv) :
    ((∃ p, extract_profile now pe = { profile := some p, extracted_at := now }) ∨
      (∃ m, extract_profile now pe = { error := some m })) ∧
    ((∃ mo le st hd, extract_attendance now ae =
        { monthly := mo, lectures := le, student := st, headers := hd,
          extracted_at := now }) ∨
      (∃ m, extract_attendance now ae = { error := some m })) ∧
    ((∃ rs, extract_exam now ee = { results := rs, extracted_at := now }) ∨
      (∃ m, extract_exam now ee = { error := some m })) ∧
    ((extract_fees now fe = { fees_page_eval fe.dom with extracted_at := now }) ∨
      (∃ m, extract_fees now fe = { error := some m })) ∧
    ((∃ rs pf, extract_result now re =
        { results := rs, performance := pf, extracted_at := now }) ∨
      (∃ m, extract_result now re = { error := some m })) := by
  refine ⟨?_, ?_, ?_, ?_, ?_⟩
  · rcases pe with ⟨nav, ev⟩
    cases nav <;> cases ev <;> simp [extract_profile, Bind.bind, Except.bind, Pure.pure, Except.pure]
  · rcases ae with ⟨nav, api, dom⟩
    cases nav <;> cases api <;> cases dom <;>
      simp [extract_attendance, Bind.bind, Except.bind, Pure.pure, Except.pure]
  · rcases ee with ⟨nav, ev⟩
    cases nav <;> cases ev <;> simp [extract_exam, Bind.bind, Except.bind, Pure.pure, Except.pure]
  · rcases fe with ⟨nav, evx, dom⟩
    cases nav <;> cases evx <;> simp [extract_fees, Bind.bind, Except.bind, Pure.pure, Except.pure]
  · rcases re with ⟨nav, a1, a2⟩
    cases nav <;> cases a1 <;> cases a2 <;>
      simp [extract_result, Bind.bind, Except.bind, Pure.pure, Except.pure]
/-- Helper: looking up `chat_id` after the UPDATE-style map rewrites only
that row's `alerts_on`. -/
theorem dbLookup_map_update (db : UsersDb) (c : Nat) (v : Bool) :
    dbLookup (db.map (fun r => if r.1 = c then (r.1, {r.2 with alerts_on := v}) else r)) c
      = (dbLookup db c).map (fun row => {row with alerts_on := v}) := by
  induction db with
  | nil => rfl
  | cons hd tl ih =>
    by_cases h : hd.1 = c
    · simp [dbLookup, h]
    · simp [dbLookup, h, ih]

/-- Helper: when no row has the key, the UPDATE-style map is the identity. -/
theorem map_update_of_lookup_none (db : UsersDb) (c : Nat) (v : Bool)
    (h : dbLookup db c = none) :
    db.map (fun r => if r.1 = c then (r.1, {r.2 with alerts_on := v}) else r) = db := by
  induction db with
  | nil => rfl
  | cons hd tl ih =>
    by_cases hc : hd.1 = c
    · exact absurd h (by simp [dbLookup, hc])
    · have htl : dbLookup tl c = none := by simpa [dbLookup, hc] using h
      simp [hc, ih htl]

/-- Helper: after REPLACE (filter out the key, append the fresh row), the
lookup finds exactly the fresh row. -/
theorem dbLookup_filter_append (db : UsersDb) (c : Nat) (row : UserRow) :
    dbLookup (db.filter (fun r => r.1 != c) ++ [(c, row)]) c = some row := by
  induction db with
  | nil => simp [dbLookup]
  | cons hd tl ih =>
    by_cases h : hd.1 = c
    · simpa [h] using ih
    · simpa [dbLookup, h] using ih

/-- Helper: one `toggle_alerts` call on a present row, split into its
returned flag and the table it writes. -/
theorem toggle_step (db : UsersDb) (c : Nat) (row : UserRow)
    (h : dbLookup db c = some row) :
    (toggle_alerts db c).2 = !row.alerts_on ∧
    (toggle_alerts db c).1
      = db.map (fun r => if r.1 = c then (r.1, {r.2 with alerts_on := !row.alerts_on}) else r) := by
  unfold toggle_alerts
  rw [h]
  exact ⟨rfl, rfl⟩

/-- C9: `toggle_alerts` is a self-inverse state change — for a user with a
stored row it returns the negation of the stored `alerts_on`, persists
that value, and a second call restores the original row; for a user with
no stored row it returns `true` and leaves the table untouched. -/
theorem toggle_alerts_selfinverse (db : UsersDb) (c : Nat) :
    (∀ row, dbLookup db c = some row →
      (toggle_alerts db c).2 = !row.alerts_on ∧
      dbLookup (toggle_alerts db c).1 c = some {row with alerts_on := !row.alerts_on} ∧
      (toggle_alerts (toggle_alerts db c).1 c).2 = row.alerts_on ∧
      dbLookup (toggle_alerts (toggle_alerts db c).1 c).1 c = some row) ∧
    (dbLookup db c = none →
      (toggle_alerts db c).2 = true ∧ (toggle_alerts db c).1 = db) := by
  constructor
  · intro row h
    obtain ⟨s2, s1⟩ := toggle_step db c row h
    have h2 : dbLookup (toggle_alerts db c).1 c
        = some {row with alerts_on := !row.alerts_on} := by
      rw [s1, dbLookup_map_update, h]
      rfl
    obtain ⟨t2, t1⟩ := toggle_step (toggle_alerts db c).1 c _ h2
    refine ⟨s2, h2, ?_, ?_⟩
    · rw [t2]
      cases row
      simp
    · rw [t1, dbLookup_map_update, h2]
      cases row
      simp
  · intro h
    have e : toggle_alerts db c
        = (db.map (fun r => if r.1 = c then (r.1, {r.2 with alerts_on := true}) else r), true) := by
      unfold toggle_alerts
      rw [h]
      exact rfl
    rw [e]
    exact ⟨rfl, map_update_of_lookup_none db c true h⟩

/-- C10: `save_credentials` replaces the username and password (and stamps
the timestamps), keeps the stored `alerts_on` flag when a row already
exists, and initialises `alerts_on` to 1 (true) for a fresh chat id. -/
theorem save_credentials_keeps_alerts (db : UsersDb) (c : Nat) (u p : String) (now : Nat) :
    (∀ row, dbLookup db c = some row →
      dbLookup (save_credentials db c u p now) c = some ⟨u, p, now, now, row.alerts_on⟩) ∧
    (dbLookup db c = none →
      dbLookup (save_credentials db c u p now) c = some ⟨u, p, now, now, true⟩) := by
  constructor
  · intro row h
    unfold save_credentials
    rw [h]
    exact dbLookup_filter_append db c _
  · intro h
    unfold save_credentials
    rw [h]
    exact dbLookup_filter_append db c _

/-- A three-snapshot history for one (user, domain) pair. -/
def snapStoreFix : List Snap :=
  save_snapshot (save_snapshot (save_snapshot [] ⟨7, "attendance", "day1", 1⟩)
    ⟨7, "attendance", "day2", 2⟩) ⟨7, "attendance", "day3", 3⟩

/-- C5: `get_last_snapshot` always excludes the most recent snapshot of
the (user, domain) pair — with fewer than two matching rows it returns
nothing, and with two or more (capture times distinct) it returns the
data of the second-newest row: a row with exactly one strictly newer
capture in the history. -/
theorem get_last_snapshot_second_newest (store : List Snap) (c : Nat) (p : String)
    (hdist : (snapRows store c p).Pairwise (fun a b => a.captured_at ≠ b.captured_at)) :
    ((snapRows store c p).length ≤ 1 → get_last_snapshot store c p = none) ∧
    (2 ≤ (snapRows store c p).length →
      ∃ s ∈ snapRows store c p, get_last_snapshot store c p = some s.data ∧
        (snapRows store c p).countP
          (fun x => decide (s.captured_at < x.captured_at)) = 1) := by
  have hperm := List.perm_insertionSort snapGE (snapRows store c p)
  have hsorted := List.sorted_insertionSort snapGE (snapRows store c p)
  constructor
  · intro h1
    unfold get_last_snapshot
    have hl : ((snapRows store c p).insertionSort snapGE).length ≤ 1 := by
      rw [hperm.length_eq]
      exact h1
    rw [List.drop_eq_nil_of_le hl]
    rfl
  · intro h2
    have hl2 : 2 ≤ ((snapRows store c p).insertionSort snapGE).length := by
      rw [hperm.length_eq]
      exact h2
    obtain ⟨a, b, t, hs⟩ :
        ∃ a b t, (snapRows store c p).insertionSort snapGE = a :: b :: t := by
      cases hm : (snapRows store c p).insertionSort snapGE with
      | nil => rw [hm] at hl2; simp at hl2
      | cons x l1 =>
        cases hm2 : l1 with
        | nil => rw [hm, hm2] at hl2; simp at hl2
        | cons y t => exact ⟨x, y, t, rfl⟩
    rw [hs] at hsorted
    have hcons := List.sorted_cons.mp hsorted
    have hab : b.captured_at ≤ a.captured_at := hcons.1 b (by simp)
    have hbt : ∀ x ∈ t, x.captured_at ≤ b.captured_at :=
      fun x hx => (List.sorted_cons.mp hcons.2).1 x hx
    have hsymm : ∀ {x y : Snap},
        x.captured_at ≠ y.captured_at → y.captured_at ≠ x.captured_at :=
      fun hxy => hxy.symm
    have hdsorted : (a :: b :: t).Pairwise (fun x y => x.captured_at ≠ y.captured_at) := by
      rw [← hs]
      exact (hperm.pairwise_iff hsymm).mpr hdist
    have hne : a.captured_at ≠ b.captured_at :=
      (List.pairwise_cons.mp hdsorted).1 b (by simp)
    have hba : b.captured_at < a.captured_at := lt_of_le_of_ne hab hne.symm
    have hresult : get_last_snapshot store c p = some b.data := by
      unfold get_last_snapshot
      rw [hs]
      rfl
    have hmem : b ∈ snapRows store c p := hperm.subset (by rw [hs]; simp)
    have hcount : (snapRows store c p).countP
        (fun x => decide (b.captured_at < x.captured_at)) = 1 := by
      rw [← hperm.countP_eq, hs, List.countP_cons, List.countP_cons]
      have hft : t.countP (fun x => decide (b.captured_at < x.captured_at)) = 0 := by
        rw [List.countP_eq_zero]
        intro x hx
        simpa using not_lt.mpr (hbt x hx)
      rw [hft]
      simp [hba]
    exact ⟨b, hmem, hresult, hcount⟩

/-- C5 witness: the three-snapshot history (capture times 1 < 2 < 3)
satisfies both parts; in particular retrieval returns the day-2 payload,
not the newest day-3 one. -/
theorem get_last_snapshot_second_newest_witness :
    ((snapRows snapStoreFix 7 "attendance").length ≤ 1 →
      get_last_snapshot snapStoreFix 7 "attendance" = none) ∧
    (2 ≤ (snapRows snapStoreFix 7 "attendance").length →
      ∃ s ∈ snapRows snapStoreFix 7 "attendance",
        get_last_snapshot snapStoreFix 7 "attendance" = some s.data ∧
        (snapRows snapStoreFix 7 "attendance").countP
          (fun x => decide (s.captured_at < x.captured_at)) = 1) :=
  get_last_snapshot_second_newest snapStoreFix 7 "attendance" (by decide)

/-- Cross-multiplied comparison agrees with the rational order (positive
denominators). -/
theorem Q.le_iff_toRat (a b : Q) (ha : 0 < a.d) (hb : 0 < b.d) :
    Q.le a b = true ↔ a.toRat ≤ b.toRat := by
  unfold Q.le Q.toRat
  rw [decide_eq_true_iff]
  rw [div_le_div_iff₀ (by exact_mod_cast ha) (by exact_mod_cast hb)]
  constructor
  · intro h
    exact_mod_cast h
  · intro h
    exact_mod_cast h

/-- A profile payload record (one populated field suffices to reach the
timestamped output). -/
def profileFix : ProfileData := { profile := some { full_name := "Alice Bee" } }

/-- A result record with one registered exam. -/
def resultFix : ResultData :=
  { results := [{ enrollment := "E1", name := "Alice", program := "BCA", semester := "Sem 1",
                  exam := "Winter 2024", exam_type := "Regular", result_declared := .jint 1,
                  swd_sem_id := .jnull, swd_term_id := .jnull, swd_year_id := .jnull,
                  swd_id := .jnull, swd_college_id := .jnull, degree_id := .jnull,
                  student_id := .jnull }] }

/-- A fees record with one transaction of ₹12,345.00. -/
def feesFix : FeesData :=
  { fees := [{ sr := 1, amount_display := "₹12,345.00", amount := ⟨1234500, 100⟩,
               pay_type := "Online", account_head := "Tuition Fee", pay_date := "01/07/2025",
               receipt_no := "R100", status := "Success" }],
    total_paid := ⟨1234500, 100⟩ }

/-- A list is a prefix (in the Boolean sense of `charsPrefix`) of itself
followed by anything. -/
theorem charsPrefix_self_append (l r : List Char) : charsPrefix l (l ++ r) = true := by
  induction l with
  | nil => rfl
  | cons a as ih => simp [charsPrefix, ih]

/-- `charsInfix` finds a pattern wherever it occurs. -/
theorem charsInfix_append (pat a b : List Char) :
    charsInfix pat (a ++ (pat ++ b)) = true := by
  induction a with
  | nil =>
    cases pat with
    | nil =>
      cases b with
      | nil => rfl
      | cons c cs => simp [charsInfix, charsPrefix]
    | cons p ps =>
      simp only [charsInfix, List.nil_append, Bool.or_eq_true]
      exact Or.inl (by simpa using charsPrefix_self_append (p :: ps) b)
  | cons c cs ih => simp [charsInfix, ih]

/-- Substring containment from an explicit decomposition of the data. -/
theorem containsSubstr_intro (t pat : String) (a b : List Char)
    (h : t.data = a ++ (pat.data ++ b)) : containsSubstr t pat = true := by
  unfold containsSubstr
  rw [h]
  exact charsInfix_append pat.data a b

/-- `joinStr` keeps each part's characters contiguous. -/
theorem joinStr_data_of_mem (sep x : String) (l : List String) (hx : x ∈ l) :
    ∃ u v, (joinStr sep l).data = u ++ (x.data ++ v) := by
  induction l with
  | nil => cases hx
  | cons y ys ih =>
    cases ys with
    | nil =>
      rcases List.mem_singleton.mp hx with rfl
      exact ⟨[], [], by simp [joinStr]⟩
    | cons z zs =>
      rcases List.mem_cons.mp hx with rfl | hx2
      · exact ⟨[], sep.data ++ (joinStr sep (z :: zs)).data,
          by simp [joinStr, String.data_append]⟩
      · obtain ⟨u, v, huv⟩ := ih hx2
        exact ⟨y.data ++ sep.data ++ u, v,
          by simp [joinStr, String.data_append, huv, List.append_assoc]⟩

/-- Substring containment through a join, from a decomposition of one of
its parts. -/
theorem containsSubstr_joinStr (sep x pat : String) (l : List String) (hx : x ∈ l)
    (a b : List Char) (hd : x.data = a ++ (pat.data ++ b)) :
    containsSubstr (joinStr sep l) pat = true := by
  obtain ⟨u, v, huv⟩ := joinStr_data_of_mem sep x l hx
  refine containsSubstr_intro _ _ (u ++ a) (b ++ v) ?_
  rw [huv, hd]
  simp [List.append_assoc]


/-- C4 counterexample: the profile, result and fees formatters are not
functions of the record alone — they print `datetime.now()` (the
`Updated:` / `As of:` line), so the same record formatted at two different
clock readings yields different text. -/
theorem formatters_read_clock_cex :
    (format_profile_message "01 Jan 2025, 10:00" profileFix
      == format_profile_message "02 Jan 2025, 10:00" profileFix) = false ∧
    (format_result_message "01 Jan 2025, 10:00" resultFix
      == format_result_message "02 Jan 2025, 10:00" resultFix) = false ∧
    (format_fees_message "01 Jan 2025" feesFix
      == format_fees_message "02 Jan 2025" feesFix) = false := by
  decide

/-- C4 (amended): each formatter is a deterministic function of the record
and the current clock reading.  On error records the output does not
depend on the clock at all; `format_attendance_message` reads no clock
(its output is a function of the record alone); the profile, result and
fees formatters stamp the clock reading into every payload output (the
`Updated:` / `As of:` line literally contains it), so for those records
the text differs across clock readings. -/
theorem formatters_deterministic_given_clock (e t1 t2 : String) :
    format_profile_message t1 { error := some e }
      = format_profile_message t2 { error := some e } ∧
    format_result_message t1 { error := some e }
      = format_result_message t2 { error := some e } ∧
    format_fees_message t1 { error := some e }
      = format_fees_message t2 { error := some e } ∧
    format_attendance_message { error := some e }
      = "❌ Could not extract attendance: " ++ e ∧
    (format_profile_message "03 Jan 2025, 09:00" profileFix
      == format_profile_message "04 Jan 2025, 09:00" profileFix) = false ∧
    (format_result_message "03 Jan 2025, 09:00" resultFix
      == format_result_message "04 Jan 2025, 09:00" resultFix) = false ∧
    (format_fees_message "03 Jan 2025" feesFix
      == format_fees_message "04 Jan 2025" feesFix) = false ∧
    (∀ (t : String) (d : ProfileData) (p : Profile), d.error = none → d.profile = some p →
      containsSubstr (format_profile_message t d) t = true) ∧
    (∀ (t : String) (d : ResultData), d.error = none → d.results ≠ [] →
      containsSubstr (format_result_message t d) t = true) ∧
    (∀ (t : String) (d : FeesData), d.error = none → d.fees ≠ [] →
      containsSubstr (format_fees_message t d) t = true) := by
  refine ⟨rfl, rfl, rfl, rfl, by decide, by decide, by decide, ?_, ?_, ?_⟩
  · intro t d p herr hp
    have hfmt : format_profile_message t d
        = joinStr "\n" (profile_core p ++ ["", "🕐 _Updated: " ++ t ++ "_"]) := by
      unfold format_profile_message
      rw [herr, hp]
    rw [hfmt]
    refine containsSubstr_joinStr "\n" ("🕐 _Updated: " ++ t ++ "_") t _
      (List.mem_append_right _ (by simp)) "🕐 _Updated: ".data "_".data ?_
    simp [String.data_append]
  · intro t d herr hres
    have hie : d.results.isEmpty = false := by
      cases hmm : d.results with
      | nil => exact absurd hmm hres
      | cons _ _ => rfl
    have hfmt : format_result_message t d
        = joinStr "\n" (result_core d ++ ["\n🕐 _Updated: " ++ t ++ "_"]) := by
      unfold format_result_message
      rw [herr, hie]
      rfl
    rw [hfmt]
    refine containsSubstr_joinStr "\n" ("\n🕐 _Updated: " ++ t ++ "_") t _
      (List.mem_append_right _ (by simp)) "\n🕐 _Updated: ".data "_".data ?_
    simp [String.data_append]
  · intro t d herr hfees
    have hie : d.fees.isEmpty = false := by
      cases hmm : d.fees with
      | nil => exact absurd hmm hfees
      | cons _ _ => rfl
    have hfmt : format_fees_message t d = joinStr "\n" (fees_lines t d) := by
      unfold format_fees_message
      rw [herr, hie]
      rfl
    rw [hfmt]
    refine containsSubstr_joinStr "\n" ("📅 As of: " ++ t) t _
      (List.mem_append_left _ (by simp)) "📅 As of: ".data [] ?_
    simp [String.data_append]

/-- C6: numeric normalisation — the display string `"₹12,345.00"`
normalises to the number 12345; a field whose stripped text fails to parse
is recorded as 0; a fee row with a valid serial is always produced in
full, whatever its amount text parses to; and the SGPA coercion falls back
to 0 on a parse failure instead of aborting. -/
theorem numeric_field_normalization :
    (normalizeAmount "₹12,345.00").toRat = (12345 : ℚ) ∧
    normalizeAmount "N/A" = 0 ∧
    (∀ raw : String, jsParseFloat (stripNonNumeric raw) = none → normalizeAmount raw = 0) ∧
    (∀ r : FeeRowRaw, ∀ k : Int, r.sr.isEmpty = false → jsParseInt r.sr = some k →
      processFeeRow r = some ⟨k, r.lbl_fee_type, normalizeAmount r.lbl_fee_type,
        r.lbl_pay_type, r.lbl_account_head, r.lbl_pay_date, r.lbl_receipt_no,
        r.lbl_status⟩) ∧
    (∀ s : String, pyParseFloat (pyStrip (s.replace "," "")) = none →
      pyFloatCoerce (.jstr s) = 0) := by
  refine ⟨?_, by decide, ?_, ?_, ?_⟩
  · rw [show normalizeAmount "₹12,345.00" = ⟨1234500, 100⟩ from by decide]
    norm_num [Q.toRat]
  · intro raw h
    unfold normalizeAmount
    rw [h]
    rfl
  · intro r k h1 h2
    simp [processFeeRow, h1, h2]
  · intro s h
    show (pyParseFloat (pyStrip (s.replace "," ""))).getD 0 = 0
    rw [h]
    rfl

/-- The one-month fixture of the spec's scenario: January, 18 of 20
lectures present, the portal-computed percentage 90. -/
def attFixture : AttData :=
  { monthly := [{ sr := 1, month := "Jan", total_arranged := .jint 20, remaining := .jint 0,
                  total_lectures := .jint 20, absent := .jint 2, present := .jint 18,
                  percentage := .jint 90 }] }

/-- C8: the formatted attendance shows each month's percentage with one
decimal and a fixed risk band: for every record and every monthly entry in
it, the output contains the entry's `{pct:.1f}%` rendering and its band
name; the 18-of-20 (90%) fixture renders `90.0%` and is classified `Good`;
the `Good` band starts exactly at 85 (84.9 falls into `OK`), and in
general the band is `Good` iff the percentage is ≥ 85. -/
theorem attendance_band_and_rendering :
    containsSubstr (format_attendance_message attFixture) "90.0%" = true ∧
    containsSubstr (format_attendance_message attFixture) "Good" = true ∧
    (att_band ⟨850, 10⟩).2 = "Good" ∧
    (att_band ⟨849, 10⟩).2 = "OK" ∧
    renderFixed 1 ⟨850, 10⟩ = "85.0" ∧
    renderFixed 1 ⟨849, 10⟩ = "84.9" ∧
    (∀ pct : Q, 0 < pct.d → ((att_band pct).2 = "Good" ↔ (85 : ℚ) ≤ pct.toRat)) ∧
    (∀ (d : AttData) (m : MonthEntry), d.error = none → m ∈ d.monthly →
      containsSubstr (format_attendance_message d)
        (renderFixed 1 (pyFloatCoerce m.percentage) ++ "%") = true ∧
      containsSubstr (format_attendance_message d)
        (att_band (pyFloatCoerce m.percentage)).2 = true) := by
  refine ⟨by decide, by decide, by decide, by decide, by decide, by decide, ?_, ?_⟩
  · intro pct hd
    have key := Q.le_iff_toRat 85 pct (by decide) hd
    have h85 : (85 : Q).toRat = (85 : ℚ) := by
      show Q.toRat ⟨((85 : Nat) : Int), 1⟩ = (85 : ℚ)
      norm_num [Q.toRat]
    rw [h85] at key
    unfold att_band
    by_cases h : Q.le 85 pct = true
    · rw [if_pos h]
      simpa using key.mp h
    · rw [if_neg h]
      have hp : ¬ ((85 : ℚ) ≤ pct.toRat) := fun hq => h (key.mpr hq)
      split_ifs <;> exact iff_of_false (by decide) hp
  · intro d m herr hm
    have hie : d.monthly.isEmpty = false := by
      cases hmm : d.monthly with
      | nil => rw [hmm] at hm; cases hm
      | cons _ _ => rfl
    have hfmt : format_attendance_message d = joinStr "\n" (att_lines d) := by
      unfold format_attendance_message
      rw [herr, hie]
      rfl
    have hmem : att_month_line m ∈ att_lines d := by
      unfold att_lines
      exact List.mem_append_left _ (List.mem_append_left _ (List.mem_append_left _
        (List.mem_append_right _ (List.mem_map_of_mem _ hm))))
    constructor
    · rw [hfmt]
      refine containsSubstr_joinStr "\n" (att_month_line m)
        (renderFixed 1 (pyFloatCoerce m.percentage) ++ "%") _ hmem
        (att_month_pre m).data
        ((att_month_mid m).data ++ ((att_band (pyFloatCoerce m.percentage)).2).data) ?_
      simp [att_month_line, String.data_append, List.append_assoc]
    · rw [hfmt]
      refine containsSubstr_joinStr "\n" (att_month_line m)
        (att_band (pyFloatCoerce m.percentage)).2 _ hmem
        ((att_month_pre m).data ++ ((renderFixed 1 (pyFloatCoerce m.percentage) ++ "%").data
          ++ (att_month_mid m).data)) [] ?_
      simp [att_month_line, String.data_append, List.append_assoc]
